import Mathlib

/-!
Verification of the parameter-registry module `global_params.py` of the
kszx_notebooks repository.  The module is declarative configuration: named
scalar constants, two derived arrays computed with `np.linspace` and
elementwise midpoints, two geometrically spaced grids computed with
`np.geomspace`, and one frequency-to-noise dictionary.  Machine floats are
embedded as exact rationals (for the linearly spaced data) and as real
numbers (for the geometric grids, whose elements are irrational).
-/

namespace GlobalParams

/-- Embedding of `np.linspace(a, b, num)` over the rationals: `num` evenly
spaced samples from `a` to `b`, endpoints included.  For `num = 1` the
division is by zero, which in Lean yields `a + 0 = a`, matching the numpy
special case of returning the single value `a`. -/
def linspace (a b : ℚ) (num : ℕ) : List ℚ :=
  (List.range num).map (fun i : ℕ => a + (b - a) * (i : ℚ) / ((num : ℚ) - 1))

/-- Source line: `nkbins = 100`. -/
def nkbins : ℕ := 100

/-- Source line: `kbin_edges = np.linspace(0, 0.3, nkbins+1)`, with the bin
count left as a parameter so that the spec scenario with 4 bins can also be
stated. -/
def kbin_edges_of (n : ℕ) : List ℚ :=
  linspace 0 (3/10) (n + 1)

/-- Source line: `kbin_centers = (kbin_edges[1:] + kbin_edges[:-1]) / 2.`:
the elementwise average of the tail of the edge array and its initial
segment. -/
def kbin_centers_of (n : ℕ) : List ℚ :=
  List.zipWith (fun x y => (x + y) / 2) (kbin_edges_of n).tail (kbin_edges_of n).dropLast

/-- The derived edge array at the configured bin count. -/
def kbin_edges : List ℚ := kbin_edges_of nkbins

/-- The derived center array at the configured bin count. -/
def kbin_centers : List ℚ := kbin_centers_of nkbins

/-- Source lines: `ksz_lmin = 1500`, `ksz_lmax = 8000`. -/
def ksz_lmin : ℤ := 1500

/-- Source line: `ksz_lmax = 8000`. -/
def ksz_lmax : ℤ := 8000

/-- Source line: `hmodel_minz = 0.43`. -/
def hmodel_minz : ℚ := 43/100

/-- Source line: `hmodel_maxz = 0.7`. -/
def hmodel_maxz : ℚ := 7/10

/-- Source line: `hmodel_zeff = 0.55`. -/
def hmodel_zeff : ℚ := 55/100

/-- Source line: `hmodel_ngal = 1e-4`. -/
def hmodel_ngal : ℚ := 1/10000

/-- Source line: `sdss_zmin = 0.43`. -/
def sdss_zmin : ℚ := 43/100

/-- Source line: `sdss_zmax = 0.7`. -/
def sdss_zmax : ℚ := 7/10

/-- Source line: `sdss_zeff = 0.57`. -/
def sdss_zeff : ℚ := 57/100

/-- Source line: `act_rms_threshold = { 90: 70.0, 150: 70.0 }`, a
frequency-to-noise dictionary embedded as an association list. -/
def act_rms_threshold : List (ℕ × ℚ) := [(90, 70), (150, 70)]

/-- The two failure modes named by the specification: a dictionary lookup at
an unregistered key, and a malformed configuration detected at load time. -/
inductive ParamError
  | UnknownParameter
  | ConfigurationError
deriving DecidableEq

/-- Dictionary lookup in `act_rms_threshold`: a present key yields its
value, a missing key fails (a Python `dict` raises on a missing key; the
spec names this failure `UnknownParameter`). -/
def act_rms_lookup (freq : ℕ) : Except ParamError ℚ :=
  match act_rms_threshold.lookup freq with
  | some v => Except.ok v
  | none => Except.error ParamError.UnknownParameter

/-- Source line: `galmask_sky_percentage = 70`. -/
def galmask_sky_percentage : ℕ := 70

/-- Source line: `galmask_apodization = 0`. -/
def galmask_apodization : ℕ := 0

/-- Source line: `act_dr = 5`. -/
def act_dr : ℕ := 5

/-- Source line: `sdss_survey = 'CMASS_North'`. -/
def sdss_survey : String := "CMASS_North"

/-- Source line: `sdss_rpad = 500`. -/
def sdss_rpad : ℕ := 500

/-- Source line: `sdss_pixsize = 10`. -/
def sdss_pixsize : ℕ := 10

/-- Source line: `sdss_mock_type = 'qpm'`. -/
def sdss_mock_type : String := "qpm"

/-- Source line: `sdss_nmocks = 1000`. -/
def sdss_nmocks : ℕ := 1000

/-- Source line: `surr_bg = 2.38`. -/
def surr_bg : ℚ := 238/100

/-- Source line: `surr_bv = 0.3`. -/
def surr_bv : ℚ := 3/10

/-- Source line: `surr_fnl = 250`. -/
def surr_fnl : ℕ := 250

/-- Source line: `num_surrogates = 1000`. -/
def num_surrogates : ℕ := 1000

/-- Embedding of `np.geomspace(a, b, num)` over the reals: `num` samples
spaced evenly on a log scale, so the i-th sample is
`a * (b / a) ^ (i / (num - 1))`. -/
noncomputable def geomspace (a b : ℝ) (num : ℕ) : List ℝ :=
  (List.range num).map (fun i : ℕ => a * (b / a) ^ ((i : ℝ) / ((num : ℝ) - 1)))

/-- Source line: `hmodel_ks = np.geomspace(1e-5,100,1000)`. -/
noncomputable def hmodel_ks : List ℝ := geomspace (1/100000) 100 1000

/-- Source line: `hmodel_ms = np.geomspace(2e10,1e17,40)`. -/
noncomputable def hmodel_ms : List ℝ := geomspace (2 * 10^10) (10^17) 40

/-- Modelled from the spec: the validated configuration surface of the
`load()` operation described in the spec.  The source module has no
parametrised loader or validation code, so the configuration record holds
the quantities the spec says must be validated: the bin count and the lower
and upper bounds of the two geometric grids. -/
structure Config where
  nkbins : ℤ
  kgrid_lo : ℚ
  kgrid_hi : ℚ
  mgrid_lo : ℚ
  mgrid_hi : ℚ
deriving DecidableEq

/-- Modelled from the spec: a configuration is well formed when the bin
count is positive and each geometric grid has a positive lower bound and a
strictly larger upper bound (not "non-positive or inverted"). -/
def wellFormed (c : Config) : Prop :=
  0 < c.nkbins ∧ 0 < c.kgrid_lo ∧ c.kgrid_lo < c.kgrid_hi ∧
    0 < c.mgrid_lo ∧ c.mgrid_lo < c.mgrid_hi

instance (c : Config) : Decidable (wellFormed c) := by
  unfold wellFormed; infer_instance

/-- Modelled from the spec: the `load()` operation, which fails fast with a
`ConfigurationError` on a malformed configuration and otherwise computes
the derived bin-edge and bin-center arrays.  The derived computation is the
one from the source. -/
def load (c : Config) : Except ParamError (List ℚ × List ℚ) :=
  if wellFormed c then
    Except.ok (kbin_edges_of c.nkbins.toNat, kbin_centers_of c.nkbins.toNat)
  else
    Except.error ParamError.ConfigurationError

/-- The full parameter registry: one field per top-level binding of the
module. -/
structure Registry where
  ksz_lmin : ℤ
  ksz_lmax : ℤ
  nkbins : ℕ
  kbin_edges : List ℚ
  kbin_centers : List ℚ
  hmodel_ks : List ℝ
  hmodel_ms : List ℝ
  hmodel_minz : ℚ
  hmodel_maxz : ℚ
  hmodel_zeff : ℚ
  hmodel_ngal : ℚ
  galmask_sky_percentage : ℕ
  galmask_apodization : ℕ
  act_dr : ℕ
  act_rms_threshold : List (ℕ × ℚ)
  sdss_survey : String
  sdss_rpad : ℕ
  sdss_pixsize : ℕ
  sdss_zmin : ℚ
  sdss_zmax : ℚ
  sdss_zeff : ℚ
  sdss_mock_type : String
  sdss_nmocks : ℕ
  surr_bg : ℚ
  surr_bv : ℚ
  surr_fnl : ℕ
  num_surrogates : ℕ

/-- Loading the module: every binding is populated with its value, in
source order. -/
noncomputable def loadRegistry : Registry :=
  ⟨ksz_lmin, ksz_lmax, nkbins, kbin_edges, kbin_centers, hmodel_ks, hmodel_ms,
   hmodel_minz, hmodel_maxz, hmodel_zeff, hmodel_ngal,
   galmask_sky_percentage, galmask_apodization, act_dr, act_rms_threshold,
   sdss_survey, sdss_rpad, sdss_pixsize, sdss_zmin, sdss_zmax, sdss_zeff,
   sdss_mock_type, sdss_nmocks, surr_bg, surr_bv, surr_fnl, num_surrogates⟩

end GlobalParams

namespace GlobalParams

theorem linspace_length (a b : ℚ) (num : ℕ) : (linspace a b num).length = num := by
  unfold linspace
  rw [List.length_map, List.length_range]

theorem linspace_getD (a b : ℚ) (num i : ℕ) (h : i < num) :
    (linspace a b num).getD i 0 = a + (b - a) * i / ((num : ℚ) - 1) := by
  unfold linspace
  rw [List.getD_eq_getElem?_getD, List.getElem?_map, List.getElem?_range h]
  rfl

theorem kbin_edges_of_length (n : ℕ) : (kbin_edges_of n).length = n + 1 :=
  linspace_length 0 (3/10) (n + 1)

theorem kbin_edges_of_getD (n i : ℕ) (h : i ≤ n) :
    (kbin_edges_of n).getD i 0 = (3/10) * i / n := by
  unfold kbin_edges_of
  rw [linspace_getD 0 (3/10) (n+1) i (by omega)]
  push_cast
  ring

theorem kbin_centers_of_getD (n i : ℕ) (h : i < n) :
    (kbin_centers_of n).getD i 0 =
      ((kbin_edges_of n).getD (i+1) 0 + (kbin_edges_of n).getD i 0) / 2 := by
  have hlen : (kbin_edges_of n).length = n + 1 := kbin_edges_of_length n
  have h1 : i + 1 < (kbin_edges_of n).length := by omega
  have h0 : i < (kbin_edges_of n).length := by omega
  unfold kbin_centers_of
  rw [List.getD_eq_getElem?_getD, List.getElem?_zipWith',
      List.getElem?_tail, List.getElem?_dropLast,
      if_pos (show i < (kbin_edges_of n).length - 1 by omega),
      List.getElem?_eq_getElem h1, List.getElem?_eq_getElem h0,
      List.getD_eq_getElem?_getD, List.getD_eq_getElem?_getD,
      List.getElem?_eq_getElem h1, List.getElem?_eq_getElem h0]
  rfl

theorem kbin_edges_step (i : ℕ) (h : i < nkbins) :
    kbin_edges.getD (i+1) 0 - kbin_edges.getD i 0 = 3/1000 := by
  unfold kbin_edges
  rw [kbin_edges_of_getD nkbins (i+1) h, kbin_edges_of_getD nkbins i (le_of_lt h)]
  simp only [nkbins]
  push_cast
  ring

end GlobalParams

namespace GlobalParams

/-- Claim C2: the default configuration yields 101 bin edges and 100 bin
centers. -/
theorem kbin_lengths : kbin_edges.length = 101 ∧ kbin_centers.length = 100 := by
  constructor <;> rfl

/-- Claim C7: loading with 4 bins yields exactly the edges
[0, 0.075, 0.15, 0.225, 0.3] and the centers
[0.0375, 0.1125, 0.1875, 0.2625], written as exact fractions. -/
theorem kbins_n4 :
    kbin_edges_of 4 = [0, 3/40, 3/20, 9/40, 3/10] ∧
    kbin_centers_of 4 = [3/80, 9/80, 3/16, 21/80] := by
  have h1 : kbin_edges_of 4 = [0, 3/40, 3/20, 9/40, 3/10] := by
    unfold kbin_edges_of linspace
    rw [show List.range (4+1) = [0, 1, 2, 3, 4] from rfl]
    simp only [List.map_cons, List.map_nil]
    norm_num
  have h2 : kbin_centers_of 4 = [3/80, 9/80, 3/16, 21/80] := by
    unfold kbin_centers_of
    rw [h1]
    simp only [List.tail_cons, List.dropLast, List.zipWith]
    norm_num
  exact ⟨h1, h2⟩

/-- Claim C10: the halo-model redshift bounds coincide with the SDSS catalog
redshift range, both being 0.43 and 0.7. -/
theorem redshift_bounds_match :
    hmodel_minz = sdss_zmin ∧ hmodel_maxz = sdss_zmax ∧
    sdss_zmin = 43/100 ∧ sdss_zmax = 7/10 :=
  ⟨rfl, rfl, rfl, rfl⟩

/-- Claim C1: every bin center is the midpoint of the two adjacent bin
edges. -/
theorem kbin_centers_midpoint (i : ℕ) (h : i < nkbins) :
    kbin_centers.getD i 0 = (kbin_edges.getD i 0 + kbin_edges.getD (i+1) 0) / 2 := by
  unfold kbin_centers kbin_edges
  rw [kbin_centers_of_getD nkbins i h]
  ring

/-- Witness for C1 at index 0. -/
theorem kbin_centers_midpoint_witness :
    0 < nkbins ∧
      kbin_centers.getD 0 0 = (kbin_edges.getD 0 0 + kbin_edges.getD 1 0) / 2 :=
  ⟨by decide, kbin_centers_midpoint 0 (by decide)⟩

/-- Claim C3: the bin edges start at 0, end at 0.3, advance by the constant
step 0.003, and are strictly increasing. -/
theorem kbin_edges_spec :
    kbin_edges.getD 0 0 = 0 ∧
    kbin_edges.getD nkbins 0 = 3/10 ∧
    (∀ i, i < nkbins → kbin_edges.getD (i+1) 0 - kbin_edges.getD i 0 = 3/1000) ∧
    (∀ i, i < nkbins → kbin_edges.getD i 0 < kbin_edges.getD (i+1) 0) := by
  refine ⟨?_, ?_, fun i h => kbin_edges_step i h, fun i h => ?_⟩
  · unfold kbin_edges
    rw [kbin_edges_of_getD nkbins 0 (by omega)]
    norm_num
  · unfold kbin_edges
    rw [kbin_edges_of_getD nkbins nkbins (le_refl _)]
    simp only [nkbins]
    norm_num
  · have hs := kbin_edges_step i h
    linarith

/-- Witness for C3 at index 0. -/
theorem kbin_edges_spec_witness :
    kbin_edges.getD 0 0 = 0 ∧
    kbin_edges.getD nkbins 0 = 3/10 ∧
    kbin_edges.getD 1 0 - kbin_edges.getD 0 0 = 3/1000 ∧
    kbin_edges.getD 0 0 < kbin_edges.getD 1 0 :=
  ⟨kbin_edges_spec.1, kbin_edges_spec.2.1,
   kbin_edges_spec.2.2.1 0 (by decide), kbin_edges_spec.2.2.2 0 (by decide)⟩

/-- Claim C4: the frequency-to-noise lookup yields 70.0 at 90 GHz and at
150 GHz, and fails with UnknownParameter at every other frequency. -/
theorem act_rms_spec :
    act_rms_lookup 90 = Except.ok 70 ∧
    act_rms_lookup 150 = Except.ok 70 ∧
    ∀ f : ℕ, f ≠ 90 → f ≠ 150 → act_rms_lookup f = Except.error ParamError.UnknownParameter := by
  refine ⟨rfl, rfl, fun f h90 h150 => ?_⟩
  have hb90 : (f == 90) = false := beq_eq_false_iff_ne.mpr h90
  have hb150 : (f == 150) = false := beq_eq_false_iff_ne.mpr h150
  unfold act_rms_lookup act_rms_threshold
  simp [List.lookup, hb90, hb150]

/-- Witness for C4 at the unregistered frequency 91. -/
theorem act_rms_spec_witness :
    act_rms_lookup 90 = Except.ok 70 ∧
    act_rms_lookup 150 = Except.ok 70 ∧
    act_rms_lookup 91 = Except.error ParamError.UnknownParameter :=
  ⟨act_rms_spec.1, act_rms_spec.2.1, act_rms_spec.2.2 91 (by decide) (by decide)⟩

/-- Claim C5: loading a malformed configuration fails fast with a
ConfigurationError, and loading a well-formed configuration raises no
error. -/
theorem load_fail_fast (c : Config) :
    (load c = Except.error ParamError.ConfigurationError ↔ ¬ wellFormed c) ∧
    ((∃ r, load c = Except.ok r) ↔ wellFormed c) := by
  by_cases h : wellFormed c <;> simp [load, h]

theorem geomspace_length (a b : ℝ) (num : ℕ) : (geomspace a b num).length = num := by
  unfold geomspace
  rw [List.length_map, List.length_range]

theorem geomspace_getD (a b : ℝ) (num i : ℕ) (h : i < num) :
    (geomspace a b num).getD i 0 = a * (b / a) ^ ((i : ℝ) / ((num : ℝ) - 1)) := by
  unfold geomspace
  rw [List.getD_eq_getElem?_getD, List.getElem?_map, List.getElem?_range h]
  rfl

theorem geomspace_getD_pos (a b : ℝ) (ha : 0 < a) (hb : 0 < b / a) (num i : ℕ)
    (h : i < num) : 0 < (geomspace a b num).getD i 0 := by
  rw [geomspace_getD a b num i h]
  exact mul_pos ha (Real.rpow_pos_of_pos hb _)

theorem geomspace_getD_lt (a b : ℝ) (ha : 0 < a) (hr : 1 < b / a) (num i : ℕ)
    (h : i + 1 < num) :
    (geomspace a b num).getD i 0 < (geomspace a b num).getD (i+1) 0 := by
  rw [geomspace_getD a b num i (by omega), geomspace_getD a b num (i+1) h]
  have hd : (0:ℝ) < (num : ℝ) - 1 := by
    have h2 : (2:ℕ) ≤ num := by omega
    have h2r : (2:ℝ) ≤ (num : ℝ) := by exact_mod_cast h2
    linarith
  have hx : ((i : ℕ) : ℝ) / ((num : ℝ) - 1) < (((i+1 : ℕ)) : ℝ) / ((num : ℝ) - 1) := by
    apply (div_lt_div_iff_of_pos_right hd).mpr
    push_cast
    linarith
  exact mul_lt_mul_of_pos_left ((Real.rpow_lt_rpow_left_iff hr).mpr hx) ha

theorem geomspace_getD_zero (a b : ℝ) (num : ℕ) (h : 0 < num) :
    (geomspace a b num).getD 0 0 = a := by
  rw [geomspace_getD a b num 0 h]
  norm_num

theorem geomspace_getD_last (a b : ℝ) (ha : a ≠ 0) (num : ℕ) (h : 2 ≤ num) :
    (geomspace a b num).getD (num - 1) 0 = b := by
  rw [geomspace_getD a b num (num - 1) (by omega)]
  have hc : ((num - 1 : ℕ) : ℝ) = (num : ℝ) - 1 := by
    have h1 : (1:ℕ) ≤ num := by omega
    push_cast [h1]
    ring
  have hd : (num : ℝ) - 1 ≠ 0 := by
    have h2r : (2:ℝ) ≤ (num : ℝ) := by exact_mod_cast h
    intro hh
    linarith
  rw [hc, div_self hd, Real.rpow_one, ← mul_div_assoc]
  exact mul_div_cancel_left₀ b ha

theorem geomspace_getD_step (a b : ℝ) (hb : 0 < b / a) (num i : ℕ) (h : i + 1 < num) :
    (geomspace a b num).getD (i+1) 0 =
      (geomspace a b num).getD i 0 * (b / a) ^ ((1:ℝ) / ((num : ℝ) - 1)) := by
  rw [geomspace_getD a b num (i+1) h, geomspace_getD a b num i (by omega),
      mul_assoc, ← Real.rpow_add hb]
  congr 1
  push_cast
  ring_nf

/-- Claim C6: both halo-model grids are elementwise strictly positive and
strictly increasing. -/
theorem hmodel_grids_pos_mono :
    (∀ i, i < 1000 → 0 < hmodel_ks.getD i 0) ∧
    (∀ i, i + 1 < 1000 → hmodel_ks.getD i 0 < hmodel_ks.getD (i+1) 0) ∧
    (∀ i, i < 40 → 0 < hmodel_ms.getD i 0) ∧
    (∀ i, i + 1 < 40 → hmodel_ms.getD i 0 < hmodel_ms.getD (i+1) 0) := by
  refine ⟨fun i h => ?_, fun i h => ?_, fun i h => ?_, fun i h => ?_⟩
  · exact geomspace_getD_pos _ _ (by norm_num) (by norm_num) 1000 i h
  · exact geomspace_getD_lt _ _ (by norm_num) (by norm_num) 1000 i h
  · exact geomspace_getD_pos _ _ (by norm_num) (by norm_num) 40 i h
  · exact geomspace_getD_lt _ _ (by norm_num) (by norm_num) 40 i h

/-- Witness for C6 at index 0 of each grid. -/
theorem hmodel_grids_pos_mono_witness :
    0 < hmodel_ks.getD 0 0 ∧ hmodel_ks.getD 0 0 < hmodel_ks.getD 1 0 ∧
    0 < hmodel_ms.getD 0 0 ∧ hmodel_ms.getD 0 0 < hmodel_ms.getD 1 0 :=
  ⟨hmodel_grids_pos_mono.1 0 (by decide), hmodel_grids_pos_mono.2.1 0 (by decide),
   hmodel_grids_pos_mono.2.2.1 0 (by decide), hmodel_grids_pos_mono.2.2.2 0 (by decide)⟩

/-- Claim C9: the wavenumber grid has 1000 geometrically spaced points from
1e-5 to 100, and the mass grid has 40 geometrically spaced points from 2e10
to 1e17; geometric spacing is expressed as a constant successive ratio. -/
theorem hmodel_grids_shape :
    hmodel_ks.length = 1000 ∧
    hmodel_ks.getD 0 0 = 1/100000 ∧
    hmodel_ks.getD 999 0 = 100 ∧
    (∀ i, i + 1 < 1000 →
      hmodel_ks.getD (i+1) 0 = hmodel_ks.getD i 0 * ((10:ℝ)^7) ^ ((1:ℝ)/999)) ∧
    hmodel_ms.length = 40 ∧
    hmodel_ms.getD 0 0 = 2 * 10^10 ∧
    hmodel_ms.getD 39 0 = 10^17 ∧
    (∀ i, i + 1 < 40 →
      hmodel_ms.getD (i+1) 0 = hmodel_ms.getD i 0 * ((10^17:ℝ)/(2 * 10^10)) ^ ((1:ℝ)/39)) := by
  refine ⟨geomspace_length _ _ _, ?_, ?_, fun i h => ?_, geomspace_length _ _ _, ?_, ?_, fun i h => ?_⟩
  · exact geomspace_getD_zero _ _ 1000 (by norm_num)
  · unfold hmodel_ks
    exact geomspace_getD_last (1/100000 : ℝ) 100 (by norm_num) 1000 (by norm_num)
  · unfold hmodel_ks
    rw [geomspace_getD_step _ _ (by norm_num) 1000 i h]
    norm_num
  · exact geomspace_getD_zero _ _ 40 (by norm_num)
  · unfold hmodel_ms
    exact geomspace_getD_last (2 * 10^10 : ℝ) (10^17) (by norm_num) 40 (by norm_num)
  · unfold hmodel_ms
    rw [geomspace_getD_step _ _ (by norm_num) 40 i h]
    norm_num

/-- Witness for C9 at index 0 of each grid. -/
theorem hmodel_grids_shape_witness :
    hmodel_ks.getD 1 0 = hmodel_ks.getD 0 0 * ((10:ℝ)^7) ^ ((1:ℝ)/999) ∧
    hmodel_ms.getD 1 0 = hmodel_ms.getD 0 0 * ((10^17:ℝ)/(2 * 10^10)) ^ ((1:ℝ)/39) :=
  ⟨hmodel_grids_shape.2.2.2.1 0 (by decide), hmodel_grids_shape.2.2.2.2.2.2.2 0 (by decide)⟩

/-- Claim C8: loading is deterministic; two loads agree on every derived
array and every other field. -/
theorem loadRegistry_deterministic (r₁ r₂ : Registry)
    (h₁ : r₁ = loadRegistry) (h₂ : r₂ = loadRegistry) :
    r₁ = r₂ ∧ r₁.kbin_edges = r₂.kbin_edges ∧ r₁.kbin_centers = r₂.kbin_centers ∧
    r₁.hmodel_ks = r₂.hmodel_ks ∧ r₁.hmodel_ms = r₂.hmodel_ms := by
  subst h₁
  subst h₂
  exact ⟨rfl, rfl, rfl, rfl, rfl⟩

/-- Witness for C8: two loads of the registry. -/
theorem loadRegistry_deterministic_witness :
    loadRegistry = loadRegistry ∧
    loadRegistry.kbin_edges = loadRegistry.kbin_edges ∧
    loadRegistry.kbin_centers = loadRegistry.kbin_centers ∧
    loadRegistry.hmodel_ks = loadRegistry.hmodel_ks ∧
    loadRegistry.hmodel_ms = loadRegistry.hmodel_ms :=
  loadRegistry_deterministic loadRegistry loadRegistry rfl rfl

end GlobalParams
